import Mathlib

/-!
Verification of the QRHUB-Server scan-tracking and redirect pipeline.

Shallow embedding of the code paths behind `GET /s/:shortCode` and
`GET /s/:shortCode/preview`: the QRCode and QRScan Mongoose models, the
fingerprint and geolocation utilities, ScanService, and ScanController.
Times are modelled as seconds of server-local time (`Nat`); the stores are
lists of documents; each fallible store or network access is driven by an
explicit per-request environment.
-/

namespace QRHub

/-- QR code lifecycle status (the QR_STATUS constant in config/constants.js). -/
inductive QRStatus
  | active
  | inactive
  | archived
deriving DecidableEq, Repr

/-- A stored QRCode document (qrcodeSchema in the QRCode model), restricted to
the fields the scan pipeline reads and writes. Ids are modelled as strings. -/
structure QRCodeDoc where
  _id : String
  businessId : String
  websiteId : String
  name : String
  targetUrl : String
  shortCode : String
  status : QRStatus
  totalScans : Nat
  uniqueScans : Nat
  lastScanAt : Option Nat
  isActive : Bool
deriving DecidableEq, Repr

/-- Seconds in one calendar day. -/
def secondsPerDay : Nat := 86400

/-- Local midnight of the day containing `t`: the `today.setHours(0,0,0,0)`
computation in qrscanSchema.statics.isUniqueScanToday. -/
def startOfDay (t : Nat) : Nat := t / secondsPerDay * secondsPerDay

/-- The calendar-day bucket of `t`, standing for the local `YYYY-MM-DD` string
produced by formatDateForFingerprint in its default daily mode (two times get
equal buckets exactly when they fall on the same local calendar day). -/
def dayBucket (t : Nat) : Nat := t / secondsPerDay

/-- An anonymous fingerprint. `hash ip ua bucket` stands for the SHA-256 digest
of the string `ip-ua-formattedDate`; the digest is abstracted as an injective
pairing of its inputs (hash collisions are out of scope). `random seed` stands
for the crypto.randomBytes fallback digest. -/
inductive Fingerprint
  | hash (ip userAgent : String) (bucket : Nat)
  | random (seed : Nat)
deriving DecidableEq, Repr

/-- generateFingerprint from utils/fingerprint.js with the default daily
format: a missing (empty, hence JS-falsy) ip or userAgent throws inside the
try block and the catch returns a random digest; otherwise the digest of
ip, userAgent and the local calendar day. -/
def generateFingerprint (ip userAgent : String) (t : Nat) (seed : Nat) :
    Fingerprint :=
  if ip = "" ∨ userAgent = "" then Fingerprint.random seed
  else Fingerprint.hash ip userAgent (dayBucket t)

/-- The lowercasing applied by the shortCode schema and by findByShortCode;
String.toLower restated structurally over the character list so that proofs
can evaluate it. -/
def lowerStr (s : String) : String := ⟨s.data.map Char.toLower⟩

/-- Splitting a character list on a separator character, the structural
counterpart of String.splitOn for the one-character separators the ip
validator uses. -/
def splitOnChar (sep : Char) : List Char → List (List Char)
  | [] => [[]]
  | c :: rest =>
      if c = sep then [] :: splitOnChar sep rest
      else
        match splitOnChar sep rest with
        | [] => [[c]]
        | g :: gs => (c :: g) :: gs

/-- The numeric value parseInt gives an all-digit character group. -/
def digitsToNat (cs : List Char) : Nat :=
  cs.foldl (fun n c => n * 10 + (c.toNat - 48)) 0

/-- A stored QRScan document (qrscanSchema in the QRScan model), restricted to
the fields the scan pipeline writes and queries. The schema stores country and
city but no region field. -/
structure ScanEvent where
  qrCodeId : String
  businessId : String
  websiteId : String
  scannedAt : Nat
  country : String
  city : String
  ipAddress : String
  device : String
  browser : String
  os : String
  userAgent : String
  fingerprint : Fingerprint
  referrer : Option String
deriving DecidableEq, Repr

/-- qrscanSchema.statics.isUniqueScanToday: true iff the store holds no scan
with this qrCodeId and fingerprint whose scannedAt is at or after local
midnight of the current day. -/
def isUniqueScanToday (scans : List ScanEvent) (qrCodeId : String)
    (fingerprint : Fingerprint) (now : Nat) : Bool :=
  !(scans.any fun s =>
    s.qrCodeId == qrCodeId && s.fingerprint == fingerprint &&
      decide (startOfDay now ≤ s.scannedAt))

/-- qrcodeSchema.statics.findByShortCode: findOne on the lowercased short code
filtered to isActive true and status active (stored short codes are lowercased
by the schema). -/
def findByShortCode (db : List QRCodeDoc) (shortCode : String) :
    Option QRCodeDoc :=
  db.find? fun q =>
    q.shortCode == lowerStr shortCode && q.isActive &&
      q.status == QRStatus.active

/-- qrcodeSchema.methods.isActiveStatus. -/
def QRCodeDoc.isActiveStatus (q : QRCodeDoc) : Bool :=
  q.status == QRStatus.active && q.isActive

/-- qrcodeSchema.methods.incrementScans: totalScans grows by one, uniqueScans
by one when the scan is unique, lastScanAt becomes the current time. -/
def QRCodeDoc.incrementScans (q : QRCodeDoc) (isUnique : Bool) (now : Nat) :
    QRCodeDoc :=
  { q with
    totalScans := q.totalScans + 1
    uniqueScans := if isUnique then q.uniqueScans + 1 else q.uniqueScans
    lastScanAt := some now }

/-- ScanService.findActiveQRCode: findByShortCode followed by the (redundant)
isActiveStatus re-check; none when the code is missing or not active. -/
def findActiveQRCode (db : List QRCodeDoc) (shortCode : String) :
    Option QRCodeDoc :=
  match findByShortCode db shortCode with
  | none => none
  | some q => if q.isActiveStatus then some q else none

/-- isValidIP from the geolocation utility: an IPv4 dotted quad of one-to-three
digit groups whose octets are at most 255, or a full eight-group IPv6 of
one-to-four hex digits. -/
def isValidIP (ip : String) : Bool :=
  if ip = "" then false
  else
    let parts := splitOnChar '.' ip.data
    if parts.length == 4 &&
        parts.all (fun p =>
          decide (1 ≤ p.length) && decide (p.length ≤ 3) &&
            p.all Char.isDigit) then
      parts.all fun p => decide (digitsToNat p ≤ 255)
    else
      let groups := splitOnChar ':' ip.data
      groups.length == 8 &&
        groups.all fun g =>
          decide (1 ≤ g.length) && decide (g.length ≤ 4) &&
            g.all fun c => c.isDigit || "abcdefABCDEF".data.contains c

/-- isPrivateIP: the three RFC1918 ranges; the 172.16-31 alternation of the
source regex is unrolled over its sixteen two-digit second octets. -/
def isPrivateIP (ip : String) : Bool :=
  "10.".data.isPrefixOf ip.data || "192.168.".data.isPrefixOf ip.data ||
    (["172.16.", "172.17.", "172.18.", "172.19.", "172.20.", "172.21.",
      "172.22.", "172.23.", "172.24.", "172.25.", "172.26.", "172.27.",
      "172.28.", "172.29.", "172.30.", "172.31."].any fun p =>
        p.data.isPrefixOf ip.data)

/-- isLocalIP: loopback addresses. -/
def isLocalIP (ip : String) : Bool :=
  ip == "127.0.0.1" || ip == "localhost" || ip == "::1" ||
    "127.".data.isPrefixOf ip.data

/-- A resolved geolocation as returned by the geolocation utility. -/
structure GeoLocation where
  country : String
  city : String
  region : String
  lat : Option Int
  lon : Option Int
deriving DecidableEq, Repr

/-- Modelled from the spec: the GEOLOCATION.DEFAULT_LOCATION constant lives in
config/constants.js, which is absent from the sources; the spec fixes the
default to country Unknown, city Unknown, region Unknown. -/
def DEFAULT_LOCATION : GeoLocation :=
  { country := "Unknown", city := "Unknown", region := "Unknown",
    lat := none, lon := none }

/-- Raw fields of one provider HTTP response body; a missing or empty
(JS-falsy) field is modelled as none, which the mapping coalesces to Unknown. -/
structure GeoApiResponse where
  country : Option String
  city : Option String
  region : Option String
  lat : Option Int
  lon : Option Int
deriving DecidableEq, Repr

/-- Outcome of the primary provider call (ip-api.com): a 2xx answer with ok
status, a 2xx answer carrying an explicit fail status, or a thrown request
error (timeout, network failure, non-2xx). -/
inductive PrimaryCall
  | success (r : GeoApiResponse)
  | failStatus
  | errored
deriving DecidableEq, Repr

/-- Outcome of the backup provider call (ipapi.co): an answer or a thrown
request error. -/
inductive BackupCall
  | success (r : GeoApiResponse)
  | errored
deriving DecidableEq, Repr

/-- fetchFromPrimaryAPI: maps the response fields, returns null (none here) on
an explicit fail status, and rethrows a request error. -/
def fetchFromPrimaryAPI (call : PrimaryCall) :
    Except Unit (Option GeoLocation) :=
  match call with
  | .success r =>
      .ok (some
        { country := r.country.getD "Unknown", city := r.city.getD "Unknown",
          region := r.region.getD "Unknown", lat := r.lat, lon := r.lon })
  | .failStatus => .ok none
  | .errored => .error ()

/-- fetchFromBackupAPI: maps the response fields, rethrows a request error. -/
def fetchFromBackupAPI (call : BackupCall) : Except Unit GeoLocation :=
  match call with
  | .success r =>
      .ok { country := r.country.getD "Unknown", city := r.city.getD "Unknown",
            region := r.region.getD "Unknown", lat := r.lat, lon := r.lon }
  | .errored => .error ()

/-- getLocationFromIP from the geolocation utility: an invalid ip yields the
default location; a private or loopback ip yields the Local marker with no
provider call; otherwise the primary provider is consulted, the backup is
consulted only when the primary call threw, and a primary fail status or a
failure of both providers yields the default. The function is total: no branch
raises to the caller. -/
def getLocationFromIP (ip : String) (primary : PrimaryCall)
    (backup : BackupCall) : GeoLocation :=
  if !(isValidIP ip) then DEFAULT_LOCATION
  else if isPrivateIP ip || isLocalIP ip then
    { DEFAULT_LOCATION with country := "Local", city := "Local" }
  else
    match fetchFromPrimaryAPI primary with
    | .ok (some location) => location
    | .ok none => DEFAULT_LOCATION
    | .error _ =>
        match fetchFromBackupAPI backup with
        | .ok location => location
        | .error _ => DEFAULT_LOCATION

/-- The three geolocation fields ScanService keeps on a scan. -/
structure GeoInfo where
  country : String
  city : String
  region : String
deriving DecidableEq, Repr

/-- ScanService.getGeoInfo: a missing ip short-circuits to Unknown; otherwise
the resolver result with empty (JS-falsy) fields coalesced to Unknown. -/
def getGeoInfo (ip : String) (primary : PrimaryCall) (backup : BackupCall) :
    GeoInfo :=
  if ip = "" then { country := "Unknown", city := "Unknown", region := "Unknown" }
  else
    let location := getLocationFromIP ip primary backup
    { country := if location.country = "" then "Unknown" else location.country
      city := if location.city = "" then "Unknown" else location.city
      region := if location.region = "" then "Unknown" else location.region }

/-- The device classification parseUserAgent returns. -/
structure DeviceInfo where
  device : String
  browser : String
  os : String
  userAgent : String
deriving DecidableEq, Repr

/-- ScanService.getDeviceInfo: a missing user agent yields the Other/Unknown
default; otherwise parseUserAgent, whose ua-parser output is treated as an
oracle supplied by the environment (its internals are not scan-pipeline logic),
with the raw user agent echoed back in the userAgent field as the source does. -/
def getDeviceInfo (userAgent : String) (parsed : DeviceInfo) : DeviceInfo :=
  if userAgent = "" then
    { device := "Other", browser := "Unknown", os := "Unknown",
      userAgent := "Unknown" }
  else { parsed with userAgent := userAgent }

/-- Per-request environment: wall clock, randomness for the fingerprint
fallback, the geolocation provider outcomes, the ua-parser oracle, and one
fault switch per fallible store access of the pipeline. -/
structure Env where
  now : Nat
  seed : Nat
  primary : PrimaryCall
  backup : BackupCall
  parsedDevice : DeviceInfo
  uniqLookupFails : Bool
  rateLookupFails : Bool
  insertFails : Bool
  counterUpdateFails : Bool
deriving DecidableEq, Repr

/-- ScanService.isUniqueScan: the isUniqueScanToday lookup with the catch
branch that falls back to unique (true) when the lookup itself fails. -/
def isUniqueScan (env : Env) (scans : List ScanEvent) (qrCodeId : String)
    (fingerprint : Fingerprint) : Bool :=
  if env.uniqLookupFails then true
  else isUniqueScanToday scans qrCodeId fingerprint env.now

/-- A string the store driver can cast to an ObjectId for the qrCodeId
filter: exactly twenty-four hex characters; any other string makes the query
throw a cast error before it runs. -/
def isValidObjectId (s : String) : Bool :=
  s.data.length == 24 &&
    s.data.all fun c => c.isDigit || "abcdefABCDEF".data.contains c

/-- The countDocuments query inside ScanService.isRateLimitAllowed, once its
qrCodeId key has cast: stored scans whose canonical qrCodeId equals the key,
from the same ip, with scannedAt inside the trailing 60 seconds. -/
def countRecentScans (scans : List ScanEvent) (key ip : String) (now : Nat) :
    Nat :=
  (scans.filter fun s =>
    s.qrCodeId == key && s.ipAddress == ip &&
      decide (now - 60 ≤ s.scannedAt)).length

/-- ScanService.isRateLimitAllowed: the countDocuments filter casts its
qrCodeId value to an ObjectId, so a key that does not cast (any real short
code: six to twenty characters, never twenty-four hex) makes the query throw
and the catch fails open, as does an injected lookup failure; with a castable
key, ten or more recent scans of the (key, ip) pair deny. The controller
passes the raw short code, not the QRCode ObjectId, as the key. -/
def isRateLimitAllowed (env : Env) (scans : List ScanEvent)
    (ip qrCodeId : String) : Bool :=
  if env.rateLookupFails || !(isValidObjectId qrCodeId) then true
  else decide (countRecentScans scans qrCodeId ip env.now < 10)

/-- The request data ScanService.extractScanDataFromRequest hands to the
pipeline; ip and userAgent are never empty there (both have the
string Unknown as fallback), but emptiness is kept representable. -/
structure ScanData where
  ip : String
  userAgent : String
  referrer : Option String
deriving DecidableEq, Repr

/-- The QRScan document ScanService.createScanRecord writes: note the stored
userAgent comes from the deviceInfo echo, and the referrer keeps its null. -/
def createScanRecord (qr : QRCodeDoc) (d : ScanData) (deviceInfo : DeviceInfo)
    (geoInfo : GeoInfo) (fingerprint : Fingerprint) (now : Nat) : ScanEvent :=
  { qrCodeId := qr._id
    businessId := qr.businessId
    websiteId := qr.websiteId
    scannedAt := now
    country := geoInfo.country
    city := geoInfo.city
    ipAddress := d.ip
    device := deviceInfo.device
    browser := deviceInfo.browser
    os := deviceInfo.os
    userAgent := deviceInfo.userAgent
    fingerprint := fingerprint
    referrer := d.referrer }

/-- ScanService.updateQRCodeStats: persists incrementScans on the resolved
document, swallowing any failure so the caller proceeds unchanged. -/
def updateQRCodeStats (env : Env) (db : List QRCodeDoc) (qr : QRCodeDoc)
    (isUnique : Bool) : List QRCodeDoc :=
  if env.counterUpdateFails then db
  else db.map fun q =>
    if q._id == qr._id then q.incrementScans isUnique env.now else q

/-- The qrCode summary inside the processScan result. -/
structure QRCodeSummary where
  id : String
  name : String
  shortCode : String
deriving DecidableEq, Repr

/-- The scan summary inside the processScan result (the generated document id
of the fresh scan is a store artifact and is omitted). -/
structure ScanSummary where
  isUnique : Bool
  device : String
  location : String
deriving DecidableEq, Repr

/-- The value processScan resolves with. -/
structure ScanOutcome where
  targetUrl : String
  qrCode : QRCodeSummary
  scan : ScanSummary
deriving DecidableEq, Repr

/-- The errors processScan can reject with: the explicit NotFoundError for a
missing or inactive code, or a persistence failure from the scan insert. -/
inductive ScanError
  | notFound
  | persistence
deriving DecidableEq, Repr

/-- Decidable equality of Except results, so witnesses can evaluate concrete
pipeline runs. -/
instance exceptDecEq {ε α : Type} [DecidableEq ε] [DecidableEq α] :
    DecidableEq (Except ε α) := fun x y =>
  match x, y with
  | .error a, .error b =>
      if h : a = b then .isTrue (congrArg Except.error h)
      else .isFalse (fun hh => h (Except.error.inj hh))
  | .error _, .ok _ => .isFalse (fun hh => Except.noConfusion hh)
  | .ok _, .error _ => .isFalse (fun hh => Except.noConfusion hh)
  | .ok a, .ok b =>
      if h : a = b then .isTrue (congrArg Except.ok h)
      else .isFalse (fun hh => h (Except.ok.inj hh))

/-- ScanService.processScan: resolve the code, derive device, geo and
fingerprint, check uniqueness, insert the scan event (the one failure that
propagates), run the best-effort counter update, and resolve with the target
url plus summaries. Returns the updated stores alongside the outcome. -/
def processScan (env : Env) (db : List QRCodeDoc) (scans : List ScanEvent)
    (shortCode : String) (d : ScanData) :
    Except ScanError (ScanOutcome × List ScanEvent × List QRCodeDoc) :=
  match findActiveQRCode db shortCode with
  | none => .error .notFound
  | some qrcode =>
      let deviceInfo := getDeviceInfo d.userAgent env.parsedDevice
      let geoInfo := getGeoInfo d.ip env.primary env.backup
      let fingerprint := generateFingerprint d.ip d.userAgent env.now env.seed
      let isUnique := isUniqueScan env scans qrcode._id fingerprint
      if env.insertFails then .error .persistence
      else
        let scan := createScanRecord qrcode d deviceInfo geoInfo fingerprint env.now
        .ok ({ targetUrl := qrcode.targetUrl
               qrCode := { id := qrcode._id, name := qrcode.name,
                           shortCode := qrcode.shortCode }
               scan := { isUnique := isUnique, device := deviceInfo.device,
                         location := geoInfo.city ++ ", " ++ geoInfo.country } },
             scans ++ [scan],
             updateQRCodeStats env db qrcode isUnique)

/-- Response of the redirect endpoint: a 302 redirect, or the branded 404
page. The constant HTML wrapper of renderErrorPage is abstracted to its one
varying part, the interpolated message: equal messages give equal pages and
distinct messages give distinct pages, the wrapper being a fixed prefix and
suffix. -/
inductive ScanHttpResponse
  | redirect (status : Nat) (location : String)
  | errorPage (status : Nat) (message : String)
deriving DecidableEq, Repr

/-- ScanController.renderErrorPage: the fixed branded template sent with
HTTP 404. -/
def renderErrorPage (message : String) : ScanHttpResponse :=
  ScanHttpResponse.errorPage 404 message

/-- ScanController.scanAndRedirect: the missing-code guard, the rate-limit
gate called with the raw short code as key, processScan, then the 302
redirect; every thrown error is mapped to the branded page. Returns the
response together with the resulting stores. -/
def scanAndRedirect (env : Env) (db : List QRCodeDoc)
    (scans : List ScanEvent) (shortCode : String) (d : ScanData) :
    ScanHttpResponse × List ScanEvent × List QRCodeDoc :=
  if shortCode = "" then (renderErrorPage "QR код не знайдено", scans, db)
  else if !(isRateLimitAllowed env scans d.ip shortCode) then
    (renderErrorPage "Занадто багато запитів. Спробуйте пізніше.", scans, db)
  else
    match processScan env db scans shortCode d with
    | .ok (result, scans1, db1) =>
        (ScanHttpResponse.redirect 302 result.targetUrl, scans1, db1)
    | .error _ =>
        (renderErrorPage "QR код не знайдено або неактивний", scans, db)

/-- Response of the preview endpoint: the 200 JSON success body with its data
fields, or the 404 JSON failure body. -/
inductive PreviewResponse
  | success (status : Nat) (qrCode : QRCodeSummary) (targetUrl : String)
      (scan : ScanSummary) (redirectIn : Nat)
  | failure (status : Nat) (message : String)
deriving DecidableEq, Repr

/-- ScanController.scanWithPreview: processScan and a JSON answer; this path
has no rate-limit gate and no missing-code guard. -/
def scanWithPreview (env : Env) (db : List QRCodeDoc)
    (scans : List ScanEvent) (shortCode : String) (d : ScanData) :
    PreviewResponse × List ScanEvent × List QRCodeDoc :=
  match processScan env db scans shortCode d with
  | .ok (result, scans1, db1) =>
      (PreviewResponse.success 200 result.qrCode result.targetUrl result.scan 3,
       scans1, db1)
  | .error _ =>
      (PreviewResponse.failure 404 "QR код не знайдено або неактивний",
       scans, db)

/-- The Joi shortCodeSchema (qrcodeValidator.js) that validateParams runs on
both scan routes before either controller: six to twenty characters, letters,
digits and hyphen only. -/
def shortCodeValid (s : String) : Bool :=
  decide (6 ≤ s.data.length) && decide (s.data.length ≤ 20) &&
    s.data.all fun c => c.isAlphanum || c == '-'

/-- The preview endpoint as claim C9 words it: the same pipeline as the
redirect endpoint, missing-code guard and rate-limit gate included, with a
404 JSON body on every rejection and the 200 JSON success body instead of
the redirect. Compared against scanWithPreview, which is what the source
actually runs. -/
def scanWithPreviewClaimed (env : Env) (db : List QRCodeDoc)
    (scans : List ScanEvent) (shortCode : String) (d : ScanData) :
    PreviewResponse × List ScanEvent × List QRCodeDoc :=
  if shortCode = "" then
    (PreviewResponse.failure 404 "QR код не знайдено або неактивний",
     scans, db)
  else if !(isRateLimitAllowed env scans d.ip shortCode) then
    (PreviewResponse.failure 404 "QR код не знайдено або неактивний",
     scans, db)
  else
    match processScan env db scans shortCode d with
    | .ok (result, scans1, db1) =>
        (PreviewResponse.success 200 result.qrCode result.targetUrl
          result.scan 3, scans1, db1)
    | .error _ =>
        (PreviewResponse.failure 404 "QR код не знайдено або неактивний",
         scans, db)

/-- The amended geolocation policy written as one flat case analysis: an
invalid ip yields the Unknown default (not Local); a private or loopback ip
yields the Local marker; otherwise the answer of a successful primary call; an
explicit primary fail status yields the Unknown default with the backup never
consulted; a thrown primary error falls back to the backup, and a double
failure yields the Unknown default; every case returns, none raises. -/
def getLocationPolicyAmended (ip : String) (primary : PrimaryCall)
    (backup : BackupCall) : GeoLocation :=
  if !(isValidIP ip) then DEFAULT_LOCATION
  else if isPrivateIP ip || isLocalIP ip then
    { DEFAULT_LOCATION with country := "Local", city := "Local" }
  else
    match primary, backup with
    | .success r, _ =>
        { country := r.country.getD "Unknown", city := r.city.getD "Unknown",
          region := r.region.getD "Unknown", lat := r.lat, lon := r.lon }
    | .failStatus, _ => DEFAULT_LOCATION
    | .errored, .success r =>
        { country := r.country.getD "Unknown", city := r.city.getD "Unknown",
          region := r.region.getD "Unknown", lat := r.lat, lon := r.lon }
    | .errored, .errored => DEFAULT_LOCATION

/-! Concrete fixtures used by witnesses and counterexamples. -/

/-- Fixture: a parsed device classification. -/
def devFx : DeviceInfo :=
  { device := "iOS", browser := "Safari", os := "iOS", userAgent := "Mozilla" }

/-- Fixture: request data from a public address. -/
def dFx : ScanData := { ip := "1.2.3.4", userAgent := "Mozilla", referrer := none }

/-- Fixture: an active QRCode document. -/
def qrFx : QRCodeDoc :=
  { _id := "64a1b2c3d4e5f60718293a4b", businessId := "b1", websiteId := "w1",
    name := "Menu QR", targetUrl := "https://example.com/menu",
    shortCode := "abc123", status := QRStatus.active,
    totalScans := 0, uniqueScans := 0, lastScanAt := none, isActive := true }

/-- Fixture: a fault-free environment at second 1000 of day 0. -/
def envFx : Env :=
  { now := 1000, seed := 7, primary := PrimaryCall.failStatus,
    backup := BackupCall.errored, parsedDevice := devFx,
    uniqLookupFails := false, rateLookupFails := false,
    insertFails := false, counterUpdateFails := false }

/-- Fixture: a second fault-free environment later the same day (second 2000
of day 0). -/
def envFx2 : Env := { envFx with now := 2000, seed := 9 }

/-- Fixture: a third fault-free environment on the following day (second 3600
of day 1). -/
def envFx3 : Env := { envFx with now := 90000, seed := 11 }

/-- Fixture: a deactivated copy of the QRCode. -/
def qrInactiveFx : QRCodeDoc := { qrFx with status := QRStatus.inactive }

/-- Fixture: the same QRCode with the longer short code used by the
rate-limit setting. -/
def qrC4 : QRCodeDoc := { qrFx with shortCode := "abc12345" }

/-- Fixture: one recent stored scan of qrC4 from ip 9.9.9.9 (stored scans
carry the document id in qrCodeId, never the short code). -/
def eventC4 : ScanEvent :=
  { qrCodeId := "64a1b2c3d4e5f60718293a4b", businessId := "b1",
    websiteId := "w1", scannedAt := 1000, country := "Unknown",
    city := "Unknown", ipAddress := "9.9.9.9", device := "iOS",
    browser := "Safari", os := "iOS", userAgent := "Mozilla",
    fingerprint := Fingerprint.random 0, referrer := none }

/-- Fixture: ten stored scans of qrC4 from the same ip inside the last
minute. -/
def scansC4 : List ScanEvent := List.replicate 10 eventC4

/-- Fixture: the environment of the eleventh scan, ten seconds later. -/
def envC4 : Env := { envFx with now := 1010 }

/-- Fixture: the request data of the eleventh scan. -/
def dC4 : ScanData := { ip := "9.9.9.9", userAgent := "Mozilla", referrer := none }

/-- Fixture: a provider answer locating the address in Paris. -/
def primaryParisFx : PrimaryCall :=
  PrimaryCall.success
    { country := some "France", city := some "Paris", region := some "IDF",
      lat := none, lon := none }

/-- Fixture: a backup provider answer locating the address in Berlin. -/
def backupBerlinFx : BackupCall :=
  BackupCall.success
    { country := some "Germany", city := some "Berlin", region := some "BE",
      lat := none, lon := none }

/-- Fixture: a stored scan of qrFx by the fixture fingerprint earlier the
same day (second 900 of day 0). -/
def eventC10 : ScanEvent :=
  { qrCodeId := "64a1b2c3d4e5f60718293a4b", businessId := "b1",
    websiteId := "w1", scannedAt := 900, country := "Unknown",
    city := "Unknown", ipAddress := "1.2.3.4", device := "iOS",
    browser := "Safari", os := "iOS", userAgent := "Mozilla",
    fingerprint := Fingerprint.hash "1.2.3.4" "Mozilla" 0, referrer := none }

/-- Fixture: the environment whose uniqueness lookup throws. -/
def envC10 : Env := { envFx with uniqLookupFails := true }

/-! Helper lemmas shared by the claim proofs. -/

/-- A document returned by findByShortCode carries the lowercased code and is
active on both axes. -/
theorem findByShortCode_fields (db : List QRCodeDoc) (code : String)
    (qr : QRCodeDoc) (h : findByShortCode db code = some qr) :
    qr.shortCode = lowerStr code ∧ qr.isActive = true ∧
      qr.status = QRStatus.active := by
  have hp := List.find?_some h
  simp only [Bool.and_eq_true, beq_iff_eq] at hp
  exact ⟨hp.1.1, hp.1.2, hp.2⟩

/-- The isActiveStatus re-check inside findActiveQRCode never rejects a
document findByShortCode returned. -/
theorem findActiveQRCode_some (db : List QRCodeDoc) (code : String)
    (qr : QRCodeDoc) (h : findByShortCode db code = some qr) :
    findActiveQRCode db code = some qr := by
  obtain ⟨_, h2, h3⟩ := findByShortCode_fields db code qr h
  unfold findActiveQRCode
  rw [h]
  simp [QRCodeDoc.isActiveStatus, h2, h3]

/-- findActiveQRCode misses whenever findByShortCode misses. -/
theorem findActiveQRCode_none (db : List QRCodeDoc) (code : String)
    (h : findByShortCode db code = none) :
    findActiveQRCode db code = none := by
  unfold findActiveQRCode
  rw [h]

/-- Normal form of a successful processScan run: resolution succeeded and the
insert is healthy, so the outcome, the appended event and the counter update
are exactly these. -/
theorem processScan_eq_ok (env : Env) (db : List QRCodeDoc)
    (scans : List ScanEvent) (code : String) (d : ScanData) (qr : QRCodeDoc)
    (hfind : findByShortCode db code = some qr)
    (hins : env.insertFails = false) :
    processScan env db scans code d =
      Except.ok
        ({ targetUrl := qr.targetUrl
           qrCode := { id := qr._id, name := qr.name, shortCode := qr.shortCode }
           scan := { isUnique := isUniqueScan env scans qr._id
                       (generateFingerprint d.ip d.userAgent env.now env.seed)
                     device := (getDeviceInfo d.userAgent env.parsedDevice).device
                     location := (getGeoInfo d.ip env.primary env.backup).city ++
                       ", " ++ (getGeoInfo d.ip env.primary env.backup).country } },
         scans ++ [createScanRecord qr d (getDeviceInfo d.userAgent env.parsedDevice)
            (getGeoInfo d.ip env.primary env.backup)
            (generateFingerprint d.ip d.userAgent env.now env.seed) env.now],
         updateQRCodeStats env db qr
           (isUniqueScan env scans qr._id
             (generateFingerprint d.ip d.userAgent env.now env.seed))) := by
  have hact := findActiveQRCode_some db code qr hfind
  unfold processScan
  rw [hact]
  simp [hins]

/-- Resolution is stable under mapping a function that does not touch the
short code or the activity fields. -/
theorem findByShortCode_map_pres (db : List QRCodeDoc) (code : String)
    (f : QRCodeDoc → QRCodeDoc)
    (hf : ∀ q, (f q).shortCode = q.shortCode ∧ (f q).isActive = q.isActive ∧
      (f q).status = q.status) :
    findByShortCode (db.map f) code = (findByShortCode db code).map f := by
  unfold findByShortCode
  rw [List.find?_map]
  have hp : ((fun q : QRCodeDoc => q.shortCode == lowerStr code && q.isActive &&
      q.status == QRStatus.active) ∘ f) =
      fun q : QRCodeDoc => q.shortCode == lowerStr code && q.isActive &&
        q.status == QRStatus.active := by
    funext q
    simp [Function.comp, (hf q).1, (hf q).2.1, (hf q).2.2]
  rw [hp]

/-- Resolution after a counter update still finds a document, with the same
document id. -/
theorem findByShortCode_updateQRCodeStats (env : Env) (db : List QRCodeDoc)
    (qr q : QRCodeDoc) (u : Bool) (code : String)
    (h : findByShortCode db code = some q) :
    ∃ q1, findByShortCode (updateQRCodeStats env db qr u) code = some q1 ∧
      q1._id = q._id := by
  unfold updateQRCodeStats
  by_cases hc : env.counterUpdateFails = true
  · refine ⟨q, ?_, rfl⟩
    rw [if_pos hc]
    exact h
  · rw [if_neg hc,
      findByShortCode_map_pres db code
        (fun x => if x._id == qr._id then x.incrementScans u env.now else x)
        (by
          intro x
          by_cases hx : x._id == qr._id <;>
            simp [hx, QRCodeDoc.incrementScans]),
      h]
    refine ⟨_, rfl, ?_⟩
    by_cases hq : q._id == qr._id <;> simp [hq, QRCodeDoc.incrementScans]

/-- Local midnight is never after the time itself. -/
theorem startOfDay_le_self (t : Nat) : startOfDay t ≤ t :=
  Nat.div_mul_le_self t secondsPerDay

/-- Two times of the same calendar day share their local midnight. -/
theorem startOfDay_eq_of_bucket_eq {a b : Nat} (h : dayBucket a = dayBucket b) :
    startOfDay a = startOfDay b := by
  unfold startOfDay
  unfold dayBucket at h
  rw [h]

/-- A time of an earlier calendar day lies strictly before the later day's
local midnight. -/
theorem lt_startOfDay_of_bucket_lt {a b : Nat} (h : dayBucket a < dayBucket b) :
    a < startOfDay b := by
  unfold dayBucket at h
  unfold startOfDay secondsPerDay
  unfold secondsPerDay at h
  omega

/-- C1: for every QRCode with isActive true and status active, a scan request
whose short code resolves to it (case-insensitively, via the lowercased
lookup), which passes the rate-limit gate and whose event insert succeeds,
terminates in an HTTP 302 redirect whose location is exactly the targetUrl of
that code. -/
theorem c1_active_scan_redirects_to_target (env : Env) (db : List QRCodeDoc)
    (scans : List ScanEvent) (code : String) (d : ScanData) (qr : QRCodeDoc)
    (_hactive : qr.isActive = true) (_hstatus : qr.status = QRStatus.active)
    (hfind : findByShortCode db code = some qr)
    (hcode : code ≠ "")
    (hrate : isRateLimitAllowed env scans d.ip code = true)
    (hins : env.insertFails = false) :
    (scanAndRedirect env db scans code d).1 =
      ScanHttpResponse.redirect 302 qr.targetUrl := by
  unfold scanAndRedirect
  rw [if_neg hcode, hrate]
  simp [processScan_eq_ok env db scans code d qr hfind hins]

/-- Witness for C1 at concrete inputs: the uppercase request ABC123 resolves
to the stored lowercase code abc123 and redirects to its target. -/
theorem c1_witness :
    ("ABC123" : String) ≠ "" ∧
    findByShortCode [qrFx] "ABC123" = some qrFx ∧
    isRateLimitAllowed envFx [] dFx.ip "ABC123" = true ∧
    envFx.insertFails = false ∧
    (scanAndRedirect envFx [qrFx] [] "ABC123" dFx).1 =
      ScanHttpResponse.redirect 302 "https://example.com/menu" :=
  ⟨by decide, by decide, by decide, by decide,
    c1_active_scan_redirects_to_target envFx [qrFx] [] "ABC123" dFx qrFx
      (by decide) (by decide) (by decide) (by decide) (by decide) (by decide)⟩

/-- C2: a deactivated, archived or soft-deleted QRCode produces, for its own
short code, exactly the 404 response produced for a short code that matches no
document at all: same status, same page body, same untouched stores, so the
caller cannot distinguish the two cases. -/
theorem c2_inactive_indistinguishable_from_missing (env : Env)
    (db : List QRCodeDoc) (scans : List ScanEvent) (code codeM : String)
    (d : ScanData) (qr : QRCodeDoc)
    (_hqr : qr ∈ db) (_hshort : qr.shortCode = lowerStr code)
    (hinact : qr.isActive = false ∨ qr.status ≠ QRStatus.active)
    (huniq : ∀ q ∈ db, q.shortCode = lowerStr code → q = qr)
    (hmiss : ∀ q ∈ db, q.shortCode ≠ lowerStr codeM)
    (hcode : code ≠ "") (hcodeM : codeM ≠ "")
    (hrate1 : isRateLimitAllowed env scans d.ip code = true)
    (hrate2 : isRateLimitAllowed env scans d.ip codeM = true) :
    scanAndRedirect env db scans code d =
      (ScanHttpResponse.errorPage 404 "QR код не знайдено або неактивний",
        scans, db) ∧
    scanAndRedirect env db scans code d =
      scanAndRedirect env db scans codeM d := by
  have hnone1 : findByShortCode db code = none := by
    unfold findByShortCode
    rw [List.find?_eq_none]
    intro q hq
    by_cases hs : q.shortCode = lowerStr code
    · have hq1 := huniq q hq hs
      subst hq1
      rcases hinact with hi | hi <;> simp [hs, hi]
    · simp [hs]
  have hnone2 : findByShortCode db codeM = none := by
    unfold findByShortCode
    rw [List.find?_eq_none]
    intro q hq
    simp [hmiss q hq]
  have hp1 : processScan env db scans code d =
      Except.error ScanError.notFound := by
    unfold processScan
    rw [findActiveQRCode_none db code hnone1]
  have hp2 : processScan env db scans codeM d =
      Except.error ScanError.notFound := by
    unfold processScan
    rw [findActiveQRCode_none db codeM hnone2]
  constructor
  · unfold scanAndRedirect
    rw [if_neg hcode, hrate1]
    simp [hp1, renderErrorPage]
  · unfold scanAndRedirect
    rw [if_neg hcode, if_neg hcodeM, hrate1, hrate2]
    simp [hp1, hp2]

/-- Witness for C2 at concrete inputs: the deactivated code abc123 and the
nonexistent code zzz999 give literally equal responses. -/
theorem c2_witness :
    qrInactiveFx ∈ [qrInactiveFx] ∧
    qrInactiveFx.shortCode = lowerStr "abc123" ∧
    (qrInactiveFx.isActive = false ∨ qrInactiveFx.status ≠ QRStatus.active) ∧
    scanAndRedirect envFx [qrInactiveFx] [] "abc123" dFx =
      (ScanHttpResponse.errorPage 404 "QR код не знайдено або неактивний",
        [], [qrInactiveFx]) ∧
    scanAndRedirect envFx [qrInactiveFx] [] "abc123" dFx =
      scanAndRedirect envFx [qrInactiveFx] [] "zzz999" dFx := by
  have main := c2_inactive_indistinguishable_from_missing envFx [qrInactiveFx]
    [] "abc123" "zzz999" dFx qrInactiveFx (by decide) (by decide) (by decide)
    (by decide) (by decide) (by decide) (by decide) (by decide) (by decide)
  exact ⟨by decide, by decide, by decide, main.1, main.2⟩

/-- C3: running the pipeline twice for the same code from the same nonempty
(ip, user agent) pair on the same calendar day makes the second scan
non-unique, whatever the store held before; a third run on a later calendar
day, every previously stored event lying before that day's local midnight, is
counted unique again. Uniqueness is the absence of a prior event with the
same qrCodeId and fingerprint since local midnight. -/
theorem c3_second_scan_same_day_not_unique_next_day_unique
    (env1 env2 env3 : Env) (db : List QRCodeDoc) (scans0 : List ScanEvent)
    (code : String) (d : ScanData) (qr : QRCodeDoc)
    (hfind : findByShortCode db code = some qr)
    (hip : d.ip ≠ "") (hua : d.userAgent ≠ "")
    (h1ins : env1.insertFails = false) (h2ins : env2.insertFails = false)
    (h3ins : env3.insertFails = false)
    (h2uniq : env2.uniqLookupFails = false)
    (h3uniq : env3.uniqLookupFails = false)
    (hday12 : dayBucket env1.now = dayBucket env2.now)
    (hday23 : dayBucket env2.now < dayBucket env3.now)
    (hold : ∀ e ∈ scans0, e.scannedAt < startOfDay env3.now) :
    ∃ r1 scans1 db1,
      processScan env1 db scans0 code d = Except.ok (r1, scans1, db1) ∧
    ∃ r2 scans2 db2,
      processScan env2 db1 scans1 code d = Except.ok (r2, scans2, db2) ∧
      r2.scan.isUnique = false ∧
    ∃ r3 scans3 db3,
      processScan env3 db2 scans2 code d = Except.ok (r3, scans3, db3) ∧
      r3.scan.isUnique = true := by
  have hnempty : ¬(d.ip = "" ∨ d.userAgent = "") := by
    push_neg
    exact ⟨hip, hua⟩
  have hfp1 : generateFingerprint d.ip d.userAgent env1.now env1.seed =
      Fingerprint.hash d.ip d.userAgent (dayBucket env1.now) := by
    unfold generateFingerprint
    rw [if_neg hnempty]
  have hfp2 : generateFingerprint d.ip d.userAgent env2.now env2.seed =
      Fingerprint.hash d.ip d.userAgent (dayBucket env1.now) := by
    unfold generateFingerprint
    rw [if_neg hnempty, hday12]
  -- run 1
  have h1 := processScan_eq_ok env1 db scans0 code d qr hfind h1ins
  refine ⟨_, _, _, h1, ?_⟩
  -- run 2: resolution survives the counter update of run 1
  obtain ⟨q1, hq1find, hq1id⟩ :=
    findByShortCode_updateQRCodeStats env1 db qr qr
      (isUniqueScan env1 scans0 qr._id
        (generateFingerprint d.ip d.userAgent env1.now env1.seed)) code hfind
  have h2 := processScan_eq_ok env2
    (updateQRCodeStats env1 db qr
      (isUniqueScan env1 scans0 qr._id
        (generateFingerprint d.ip d.userAgent env1.now env1.seed)))
    (scans0 ++ [createScanRecord qr d
      (getDeviceInfo d.userAgent env1.parsedDevice)
      (getGeoInfo d.ip env1.primary env1.backup)
      (generateFingerprint d.ip d.userAgent env1.now env1.seed) env1.now])
    code d q1 hq1find h2ins
  refine ⟨_, _, _, h2, ?_, ?_⟩
  · -- the second scan is not unique: run 1 left a matching event
    show isUniqueScan env2 _ q1._id
      (generateFingerprint d.ip d.userAgent env2.now env2.seed) = false
    have hle21 : startOfDay env2.now ≤ env1.now := by
      rw [← startOfDay_eq_of_bucket_eq hday12]
      exact startOfDay_le_self env1.now
    have hany : (List.any (scans0 ++ [createScanRecord qr d
        (getDeviceInfo d.userAgent env1.parsedDevice)
        (getGeoInfo d.ip env1.primary env1.backup)
        (generateFingerprint d.ip d.userAgent env1.now env1.seed) env1.now])
        fun s => s.qrCodeId == q1._id &&
          s.fingerprint == generateFingerprint d.ip d.userAgent env2.now env2.seed &&
          decide (startOfDay env2.now ≤ s.scannedAt)) = true := by
      refine List.any_eq_true.mpr ⟨_, List.mem_append_right _ (List.mem_singleton_self _), ?_⟩
      simp [createScanRecord, hq1id, hfp1, hfp2, hle21]
    unfold isUniqueScan
    rw [if_neg (by simp [h2uniq])]
    unfold isUniqueScanToday
    rw [hany]
    rfl
  -- run 3: resolution survives the counter update of run 2
  obtain ⟨q2, hq2find, hq2id⟩ :=
    findByShortCode_updateQRCodeStats env2 _ q1 q1
      (isUniqueScan env2
        (scans0 ++ [createScanRecord qr d
          (getDeviceInfo d.userAgent env1.parsedDevice)
          (getGeoInfo d.ip env1.primary env1.backup)
          (generateFingerprint d.ip d.userAgent env1.now env1.seed) env1.now])
        q1._id
        (generateFingerprint d.ip d.userAgent env2.now env2.seed)) code hq1find
  have h3 := processScan_eq_ok env3 _
    ((scans0 ++ [createScanRecord qr d
      (getDeviceInfo d.userAgent env1.parsedDevice)
      (getGeoInfo d.ip env1.primary env1.backup)
      (generateFingerprint d.ip d.userAgent env1.now env1.seed) env1.now]) ++
      [createScanRecord q1 d
        (getDeviceInfo d.userAgent env2.parsedDevice)
        (getGeoInfo d.ip env2.primary env2.backup)
        (generateFingerprint d.ip d.userAgent env2.now env2.seed) env2.now])
    code d q2 hq2find h3ins
  refine ⟨_, _, _, h3, ?_⟩
  -- the first scan of the later day is unique: every stored event predates
  -- that day's local midnight
  show isUniqueScan env3 _ q2._id
    (generateFingerprint d.ip d.userAgent env3.now env3.seed) = true
  have hlt1 : env1.now < startOfDay env3.now :=
    lt_startOfDay_of_bucket_lt (hday12 ▸ hday23)
  have hlt2 : env2.now < startOfDay env3.now :=
    lt_startOfDay_of_bucket_lt hday23
  have hany3 : (List.any ((scans0 ++ [createScanRecord qr d
      (getDeviceInfo d.userAgent env1.parsedDevice)
      (getGeoInfo d.ip env1.primary env1.backup)
      (generateFingerprint d.ip d.userAgent env1.now env1.seed) env1.now]) ++
      [createScanRecord q1 d
        (getDeviceInfo d.userAgent env2.parsedDevice)
        (getGeoInfo d.ip env2.primary env2.backup)
        (generateFingerprint d.ip d.userAgent env2.now env2.seed) env2.now])
      fun s => s.qrCodeId == q2._id &&
        s.fingerprint == generateFingerprint d.ip d.userAgent env3.now env3.seed &&
        decide (startOfDay env3.now ≤ s.scannedAt)) = false := by
    refine List.any_eq_false.mpr ?_
    intro e he
    rcases List.mem_append.mp he with he12 | he3
    · rcases List.mem_append.mp he12 with he0 | he1
      · simp [Nat.not_le.mpr (hold e he0)]
      · rw [List.mem_singleton.mp he1]
        simp [createScanRecord, Nat.not_le.mpr hlt1]
    · rw [List.mem_singleton.mp he3]
      simp [createScanRecord, Nat.not_le.mpr hlt2]
  unfold isUniqueScan
  rw [if_neg (by simp [h3uniq])]
  unfold isUniqueScanToday
  rw [hany3]
  rfl

/-- Witness for C3 at concrete inputs: scans at seconds 1000 and 2000 of day
zero and at second 3600 of day one; the second run reports a non-unique scan
and the third run reports a unique one. -/
theorem c3_witness :
    findByShortCode [qrFx] "abc123" = some qrFx ∧
    dFx.ip ≠ "" ∧ dFx.userAgent ≠ "" ∧
    dayBucket envFx.now = dayBucket envFx2.now ∧
    dayBucket envFx2.now < dayBucket envFx3.now ∧
    ((processScan envFx [qrFx] [] "abc123" dFx).bind fun x =>
        processScan envFx2 x.2.2 x.2.1 "abc123" dFx).map
      (fun x => x.1.scan.isUnique) = Except.ok false ∧
    (((processScan envFx [qrFx] [] "abc123" dFx).bind fun x =>
        processScan envFx2 x.2.2 x.2.1 "abc123" dFx).bind fun x =>
        processScan envFx3 x.2.2 x.2.1 "abc123" dFx).map
      (fun x => x.1.scan.isUnique) = Except.ok true := by
  have main := c3_second_scan_same_day_not_unique_next_day_unique
    envFx envFx2 envFx3 [qrFx] [] "abc123" dFx qrFx (by decide) (by decide)
    (by decide) (by decide) (by decide) (by decide) (by decide) (by decide)
    (by decide) (by decide) (by intro e he; cases he)
  obtain ⟨r1, s1, b1, h1, r2, s2, b2, h2, hu2, r3, s3, b3, h3, hu3⟩ := main
  refine ⟨by decide, by decide, by decide, by decide, by decide, ?_, ?_⟩
  · rw [h1]
    show (processScan envFx2 b1 s1 "abc123" dFx).map
      (fun x => x.1.scan.isUnique) = Except.ok false
    rw [h2]
    show Except.ok r2.scan.isUnique = Except.ok false
    rw [hu2]
  · rw [h1]
    show ((processScan envFx2 b1 s1 "abc123" dFx).bind fun x =>
        processScan envFx3 x.2.2 x.2.1 "abc123" dFx).map
      (fun x => x.1.scan.isUnique) = Except.ok true
    rw [h2]
    show (processScan envFx3 b2 s2 "abc123" dFx).map
      (fun x => x.1.scan.isUnique) = Except.ok true
    rw [h3]
    show Except.ok r3.scan.isUnique = Except.ok true
    rw [hu3]

/-- C4: the rate limiter keyed by the QRCode document id would deny the
eleventh scan (ten stored events from this ip within sixty seconds), but the
redirect endpoint passes the raw short code as the key; the short code cannot
cast to an ObjectId, the count query throws, the gate fails open, and the
eleventh scan is allowed and answered with the 302 redirect instead of a 404
rejection. -/
theorem c4_rate_limit_key_mismatch_eleventh_scan_redirects :
    countRecentScans scansC4 qrC4._id dC4.ip envC4.now = 10 ∧
    isRateLimitAllowed envC4 scansC4 dC4.ip qrC4._id = false ∧
    isRateLimitAllowed envC4 scansC4 dC4.ip qrC4.shortCode = true ∧
    (scanAndRedirect envC4 [qrC4] scansC4 "abc12345" dC4).1 =
      ScanHttpResponse.redirect 302 "https://example.com/menu" := by
  decide

/-- C5: when the counter update fails after the event insert succeeded, the
failure is swallowed: processScan still resolves with the targetUrl and an
untouched QRCode store, and the endpoint answers the same 302 redirect it
answers when the update succeeds. -/
theorem c5_counter_update_failure_leaves_response_unchanged (env envOk : Env)
    (db : List QRCodeDoc) (scans : List ScanEvent) (code : String)
    (d : ScanData) (qr : QRCodeDoc)
    (hfind : findByShortCode db code = some qr)
    (hcode : code ≠ "")
    (hrateT : isRateLimitAllowed env scans d.ip code = true)
    (hins : env.insertFails = false)
    (hcuf : env.counterUpdateFails = true)
    (henv : envOk = { env with counterUpdateFails := false }) :
    (processScan env db scans code d).map (fun x => (x.1.targetUrl, x.2.2)) =
      Except.ok (qr.targetUrl, db) ∧
    (scanAndRedirect env db scans code d).1 =
      ScanHttpResponse.redirect 302 qr.targetUrl ∧
    (scanAndRedirect env db scans code d).1 =
      (scanAndRedirect envOk db scans code d).1 := by
  have h1 := processScan_eq_ok env db scans code d qr hfind hins
  have hupd : updateQRCodeStats env db qr
      (isUniqueScan env scans qr._id
        (generateFingerprint d.ip d.userAgent env.now env.seed)) = db := by
    unfold updateQRCodeStats
    rw [if_pos hcuf]
  have hL : (scanAndRedirect env db scans code d).1 =
      ScanHttpResponse.redirect 302 qr.targetUrl := by
    unfold scanAndRedirect
    rw [if_neg hcode, hrateT]
    simp [h1]
  have hrateF : isRateLimitAllowed { env with counterUpdateFails := false }
      scans d.ip code = true := hrateT
  have hinsF : ({ env with counterUpdateFails := false } : Env).insertFails =
      false := hins
  have h2 := processScan_eq_ok { env with counterUpdateFails := false }
    db scans code d qr hfind hinsF
  have hR : (scanAndRedirect { env with counterUpdateFails := false }
      db scans code d).1 = ScanHttpResponse.redirect 302 qr.targetUrl := by
    unfold scanAndRedirect
    rw [if_neg hcode, hrateF]
    simp [h2]
  subst henv
  refine ⟨?_, hL, by rw [hL, hR]⟩
  rw [h1]
  show Except.ok (qr.targetUrl, updateQRCodeStats env db qr
    (isUniqueScan env scans qr._id
      (generateFingerprint d.ip d.userAgent env.now env.seed))) =
    Except.ok (qr.targetUrl, db)
  rw [hupd]

/-- Witness for C5 at concrete inputs: with the counter update failing, the
request still answers the redirect, identical to the fault-free answer. -/
theorem c5_witness :
    findByShortCode [qrFx] "abc123" = some qrFx ∧
    ({ envFx with counterUpdateFails := true } : Env).insertFails = false ∧
    ({ envFx with counterUpdateFails := true } : Env).counterUpdateFails = true ∧
    (processScan { envFx with counterUpdateFails := true } [qrFx] [] "abc123"
        dFx).map (fun x => (x.1.targetUrl, x.2.2)) =
      Except.ok ("https://example.com/menu", [qrFx]) ∧
    (scanAndRedirect { envFx with counterUpdateFails := true } [qrFx] []
        "abc123" dFx).1 =
      ScanHttpResponse.redirect 302 "https://example.com/menu" ∧
    (scanAndRedirect { envFx with counterUpdateFails := true } [qrFx] []
        "abc123" dFx).1 =
      (scanAndRedirect envFx [qrFx] [] "abc123" dFx).1 := by
  have main := c5_counter_update_failure_leaves_response_unchanged
    { envFx with counterUpdateFails := true } envFx [qrFx] [] "abc123" dFx qrFx
    (by decide) (by decide) (by decide) (by decide) (by decide) (by decide)
  exact ⟨by decide, by decide, by decide, main.1, main.2.1, main.2.2⟩

/-- C6 counterexample: for the invalid address 999.0.0.1 the resolver answers
the Unknown default, not the Local marker the claim requires, even though
both providers would have answered with real locations. -/
theorem c6_counterexample :
    getLocationFromIP "999.0.0.1" primaryParisFx backupBerlinFx =
      DEFAULT_LOCATION ∧
    (getLocationFromIP "999.0.0.1" primaryParisFx backupBerlinFx).country ≠
      "Local" ∧
    (getLocationFromIP "999.0.0.1" primaryParisFx backupBerlinFx).city ≠
      "Local" := by
  decide

/-- C6 amended: the resolver is a total function (it never raises) equal to
the flat amended policy on every input: an invalid ip yields the Unknown
default (not Local); a private or loopback ip yields Local with no provider
call; a successful primary answer is returned; a thrown primary error falls
back to the backup; an explicit primary fail status, or both providers
throwing, yields the Unknown default. -/
theorem c6_amended_geolocation_policy (ip : String) (primary : PrimaryCall)
    (backup : BackupCall) :
    getLocationFromIP ip primary backup =
      getLocationPolicyAmended ip primary backup := by
  cases primary <;> cases backup <;> rfl

/-- C7 counterexample: the missing-code rejection and the not-found rejection
both answer HTTP 404 but with different page bodies, so the rejection bodies
are not identical across causes. -/
theorem c7_counterexample :
    (scanAndRedirect envFx [] [] "" dFx).1 =
      ScanHttpResponse.errorPage 404 "QR код не знайдено" ∧
    (scanAndRedirect envFx [] [] "zzz999" dFx).1 =
      ScanHttpResponse.errorPage 404 "QR код не знайдено або неактивний" ∧
    (scanAndRedirect envFx [] [] "" dFx).1 ≠
      (scanAndRedirect envFx [] [] "zzz999" dFx).1 := by
  decide

/-- C7 amended: every rejection of the redirect endpoint is HTTP 404 through
the one branded page template, but the embedded message is tied to its cause:
a missing short code answers the missing-code message, a rate-limit denial
answers the too-many-requests message, and every other failure (code not
found or inactive, persistence failure) answers the not-found-or-inactive
message; the preview endpoint answers every failure with a 404 JSON body
carrying that same message; and every response of the redirect endpoint is a
302 redirect or one of exactly these three 404 pages. -/
theorem c7_amended_rejection_message_matches_cause (env : Env)
    (db : List QRCodeDoc) (scans : List ScanEvent) (code : String)
    (d : ScanData) :
    (code = "" →
      scanAndRedirect env db scans code d =
        (ScanHttpResponse.errorPage 404 "QR код не знайдено", scans, db)) ∧
    (code ≠ "" → isRateLimitAllowed env scans d.ip code = false →
      scanAndRedirect env db scans code d =
        (ScanHttpResponse.errorPage 404
          "Занадто багато запитів. Спробуйте пізніше.", scans, db)) ∧
    (∀ err : ScanError, code ≠ "" →
      isRateLimitAllowed env scans d.ip code = true →
      processScan env db scans code d = Except.error err →
      scanAndRedirect env db scans code d =
        (ScanHttpResponse.errorPage 404
          "QR код не знайдено або неактивний", scans, db)) ∧
    (∀ err : ScanError, processScan env db scans code d = Except.error err →
      scanWithPreview env db scans code d =
        (PreviewResponse.failure 404
          "QR код не знайдено або неактивний", scans, db)) ∧
    ((∃ url, (scanAndRedirect env db scans code d).1 =
        ScanHttpResponse.redirect 302 url) ∨
      (∃ m, (scanAndRedirect env db scans code d).1 =
          ScanHttpResponse.errorPage 404 m ∧
        (m = "QR код не знайдено" ∨
         m = "Занадто багато запитів. Спробуйте пізніше." ∨
         m = "QR код не знайдено або неактивний"))) := by
  refine ⟨?_, ?_, ?_, ?_, ?_⟩
  · intro h0
    unfold scanAndRedirect
    rw [if_pos h0]
    rfl
  · intro h0 h1
    unfold scanAndRedirect
    rw [if_neg h0]
    simp [h1, renderErrorPage]
  · intro err h0 h1 hp
    unfold scanAndRedirect
    rw [if_neg h0]
    simp [h1, hp, renderErrorPage]
  · intro err hp
    simp [scanWithPreview, hp]
  · unfold scanAndRedirect
    by_cases h0 : code = ""
    · rw [if_pos h0]
      exact Or.inr ⟨"QR код не знайдено", rfl, Or.inl rfl⟩
    · rw [if_neg h0]
      cases h1 : isRateLimitAllowed env scans d.ip code
      · exact Or.inr ⟨"Занадто багато запитів. Спробуйте пізніше.",
          by simp [h1, renderErrorPage], Or.inr (Or.inl rfl)⟩
      · cases hp : processScan env db scans code d with
        | ok v =>
            obtain ⟨r, s1, b1⟩ := v
            exact Or.inl ⟨r.targetUrl, by simp [h1, hp]⟩
        | error e =>
            exact Or.inr ⟨"QR код не знайдено або неактивний",
              by simp [h1, hp, renderErrorPage], Or.inr (Or.inr rfl)⟩

/-- Witness for C7 at concrete inputs, one per rejection cause: the empty
code answers the missing-code page; a denying gate (keyed, as only a
castable twenty-four-hex key can be, by a document id with ten recent scans)
answers the rate-limit page; a nonexistent code answers the
not-found-or-inactive page on the redirect endpoint and the matching 404
JSON on the preview endpoint. -/
theorem c7_amended_witness :
    scanAndRedirect envFx [] [] "" dFx =
      (ScanHttpResponse.errorPage 404 "QR код не знайдено", [], []) ∧
    ("64a1b2c3d4e5f60718293a4b" : String) ≠ "" ∧
    isRateLimitAllowed envC4 scansC4 dC4.ip "64a1b2c3d4e5f60718293a4b" =
      false ∧
    scanAndRedirect envC4 [qrC4] scansC4 "64a1b2c3d4e5f60718293a4b" dC4 =
      (ScanHttpResponse.errorPage 404
        "Занадто багато запитів. Спробуйте пізніше.", scansC4, [qrC4]) ∧
    ("zzz999" : String) ≠ "" ∧
    isRateLimitAllowed envFx [] dFx.ip "zzz999" = true ∧
    processScan envFx [] [] "zzz999" dFx =
      Except.error ScanError.notFound ∧
    scanAndRedirect envFx [] [] "zzz999" dFx =
      (ScanHttpResponse.errorPage 404
        "QR код не знайдено або неактивний", [], []) ∧
    scanWithPreview envFx [] [] "zzz999" dFx =
      (PreviewResponse.failure 404
        "QR код не знайдено або неактивний", [], []) := by
  have m1 := c7_amended_rejection_message_matches_cause envFx [] [] "" dFx
  have m2 := c7_amended_rejection_message_matches_cause envC4 [qrC4] scansC4
    "64a1b2c3d4e5f60718293a4b" dC4
  have m3 := c7_amended_rejection_message_matches_cause envFx [] [] "zzz999"
    dFx
  exact ⟨m1.1 rfl, by decide, by decide,
    m2.2.1 (by decide) (by decide), by decide, by decide, by decide,
    m3.2.2.1 ScanError.notFound (by decide) (by decide) (by decide),
    m3.2.2.2.1 ScanError.notFound (by decide)⟩

/-- C8: starting from zero counters, any sequence of incrementScans calls
keeps uniqueScans at most totalScans, and a single incrementScans never
decreases either counter. -/
theorem c8_counters_invariant_and_monotone (calls : List (Bool × Nat))
    (q0 : QRCodeDoc) (h0t : q0.totalScans = 0) (h0u : q0.uniqueScans = 0) :
    (calls.foldl (fun q c => q.incrementScans c.1 c.2) q0).uniqueScans ≤
      (calls.foldl (fun q c => q.incrementScans c.1 c.2) q0).totalScans ∧
    ∀ (q : QRCodeDoc) (u : Bool) (t : Nat),
      q.totalScans ≤ (q.incrementScans u t).totalScans ∧
      q.uniqueScans ≤ (q.incrementScans u t).uniqueScans := by
  constructor
  · have key : ∀ (cs : List (Bool × Nat)) (q : QRCodeDoc),
        q.uniqueScans ≤ q.totalScans →
        (cs.foldl (fun q c => q.incrementScans c.1 c.2) q).uniqueScans ≤
          (cs.foldl (fun q c => q.incrementScans c.1 c.2) q).totalScans := by
      intro cs
      induction cs with
      | nil => intro q h; exact h
      | cons c rest ih =>
          intro q h
          apply ih
          obtain ⟨u, t⟩ := c
          unfold QRCodeDoc.incrementScans
          cases u <;> simp <;> omega
    exact key calls q0 (by omega)
  · intro q u t
    unfold QRCodeDoc.incrementScans
    refine ⟨Nat.le_succ _, ?_⟩
    cases u <;> simp

/-- Witness for C8 at concrete inputs: a unique then a non-unique increment
starting from the zero-counter fixture. -/
theorem c8_witness :
    qrFx.totalScans = 0 ∧ qrFx.uniqueScans = 0 ∧
    (([(true, 5), (false, 6)] : List (Bool × Nat)).foldl
        (fun q c => q.incrementScans c.1 c.2) qrFx).uniqueScans ≤
      (([(true, 5), (false, 6)] : List (Bool × Nat)).foldl
        (fun q c => q.incrementScans c.1 c.2) qrFx).totalScans :=
  ⟨by decide, by decide,
    (c8_counters_invariant_and_monotone [(true, 5), (false, 6)] qrFx
      (by decide) (by decide)).1⟩

/-- A short code the route validator admits is never a castable ObjectId:
its length is at most twenty, a castable key needs twenty-four characters. -/
theorem isValidObjectId_eq_false_of_shortCodeValid (s : String)
    (h : shortCodeValid s = true) : isValidObjectId s = false := by
  unfold shortCodeValid at h
  simp only [Bool.and_eq_true, decide_eq_true_eq] at h
  obtain ⟨⟨_, h2⟩, _⟩ := h
  unfold isValidObjectId
  have hne : s.data.length ≠ 24 := by omega
  rw [beq_eq_false_iff_ne.mpr hne, Bool.false_and]

/-- For every short code the route validator admits, the rate-limit gate
allows: the count query cannot cast the key and the catch fails open. -/
theorem rate_gate_allows_valid_code (env : Env) (scans : List ScanEvent)
    (ip s : String) (h : shortCodeValid s = true) :
    isRateLimitAllowed env scans ip s = true := by
  unfold isRateLimitAllowed
  rw [isValidObjectId_eq_false_of_shortCodeValid s h]
  simp

/-- C9: for every short code the route validator admits, the preview
endpoint behaves exactly like the claimed pipeline of the redirect endpoint
with its missing-code guard and rate-limit gate included: equal responses
and equal resulting stores on every input, the success answer being the 200
JSON body with redirectIn 3 and every failure a 404 JSON body. The gate
never denies a validated code (its key cannot cast, so it fails open), which
is what makes the two pipelines coincide. -/
theorem c9_preview_matches_gate_included_pipeline (env : Env)
    (db : List QRCodeDoc) (scans : List ScanEvent) (code : String)
    (d : ScanData) (hvalid : shortCodeValid code = true) :
    scanWithPreview env db scans code d =
      scanWithPreviewClaimed env db scans code d ∧
    ((∃ qc url sc, (scanWithPreview env db scans code d).1 =
        PreviewResponse.success 200 qc url sc 3) ∨
      (scanWithPreview env db scans code d).1 =
        PreviewResponse.failure 404
          "QR код не знайдено або неактивний") := by
  have hne : code ≠ "" := by
    intro h0
    rw [h0] at hvalid
    exact absurd hvalid (by decide)
  have hgate := rate_gate_allows_valid_code env scans d.ip code hvalid
  constructor
  · unfold scanWithPreviewClaimed scanWithPreview
    rw [if_neg hne, hgate]
    simp
  · cases hp : processScan env db scans code d with
    | ok v =>
        obtain ⟨r, s1, b1⟩ := v
        exact Or.inl ⟨r.qrCode, r.targetUrl, r.scan,
          by simp [scanWithPreview, hp]⟩
    | error e =>
        exact Or.inr (by simp [scanWithPreview, hp])

/-- Witness for C9 at concrete inputs: a resolving code and a nonexistent
code, both validator-admitted; on each the preview endpoint answers exactly
what the gate-included pipeline answers. -/
theorem c9_witness :
    shortCodeValid "abc123" = true ∧
    scanWithPreview envFx [qrFx] [] "abc123" dFx =
      scanWithPreviewClaimed envFx [qrFx] [] "abc123" dFx ∧
    shortCodeValid "zzz999" = true ∧
    scanWithPreview envFx [] [] "zzz999" dFx =
      scanWithPreviewClaimed envFx [] [] "zzz999" dFx :=
  ⟨by decide,
    (c9_preview_matches_gate_included_pipeline envFx [qrFx] [] "abc123" dFx
      (by decide)).1,
    by decide,
    (c9_preview_matches_gate_included_pipeline envFx [] [] "zzz999" dFx
      (by decide)).1⟩

/-- C10: when the uniqueness lookup itself fails, isUniqueScan falls open to
unique: the scan is still recorded and reported unique, and every document
with the resolved id gets uniqueScans incremented, even though the store
already holds a same-day event with the same fingerprint for this code (a
healthy lookup would have answered false). -/
theorem c10_lookup_failure_falls_open_to_unique (env : Env)
    (db : List QRCodeDoc) (scans : List ScanEvent) (code : String)
    (d : ScanData) (qr : QRCodeDoc) (e : ScanEvent)
    (hfind : findByShortCode db code = some qr)
    (hfail : env.uniqLookupFails = true)
    (hins : env.insertFails = false)
    (hcu : env.counterUpdateFails = false)
    (he : e ∈ scans) (heqr : e.qrCodeId = qr._id)
    (hefp : e.fingerprint =
      generateFingerprint d.ip d.userAgent env.now env.seed)
    (hetime : startOfDay env.now ≤ e.scannedAt) :
    isUniqueScanToday scans qr._id
        (generateFingerprint d.ip d.userAgent env.now env.seed) env.now =
      false ∧
    (processScan env db scans code d).map
        (fun x => (x.1.scan.isUnique, x.2.1)) =
      Except.ok (true, scans ++ [createScanRecord qr d
        (getDeviceInfo d.userAgent env.parsedDevice)
        (getGeoInfo d.ip env.primary env.backup)
        (generateFingerprint d.ip d.userAgent env.now env.seed) env.now]) ∧
    (processScan env db scans code d).map (fun x => x.2.2) =
      Except.ok (db.map fun q =>
        if q._id == qr._id then q.incrementScans true env.now else q) := by
  have hu : isUniqueScan env scans qr._id
      (generateFingerprint d.ip d.userAgent env.now env.seed) = true := by
    unfold isUniqueScan
    rw [if_pos hfail]
  have h1 := processScan_eq_ok env db scans code d qr hfind hins
  refine ⟨?_, ?_, ?_⟩
  · unfold isUniqueScanToday
    have hany : (scans.any fun s => s.qrCodeId == qr._id &&
        s.fingerprint ==
          generateFingerprint d.ip d.userAgent env.now env.seed &&
        decide (startOfDay env.now ≤ s.scannedAt)) = true :=
      List.any_eq_true.mpr ⟨e, he, by simp [heqr, hefp, hetime]⟩
    rw [hany]
    rfl
  · rw [h1]
    show Except.ok (isUniqueScan env scans qr._id
        (generateFingerprint d.ip d.userAgent env.now env.seed),
        scans ++ [createScanRecord qr d
          (getDeviceInfo d.userAgent env.parsedDevice)
          (getGeoInfo d.ip env.primary env.backup)
          (generateFingerprint d.ip d.userAgent env.now env.seed) env.now]) =
      Except.ok (true, scans ++ [createScanRecord qr d
        (getDeviceInfo d.userAgent env.parsedDevice)
        (getGeoInfo d.ip env.primary env.backup)
        (generateFingerprint d.ip d.userAgent env.now env.seed) env.now])
    rw [hu]
  · rw [h1]
    show Except.ok (updateQRCodeStats env db qr
        (isUniqueScan env scans qr._id
          (generateFingerprint d.ip d.userAgent env.now env.seed))) =
      Except.ok (db.map fun q =>
        if q._id == qr._id then q.incrementScans true env.now else q)
    rw [hu]
    unfold updateQRCodeStats
    rw [if_neg (by simp [hcu])]

/-- Witness for C10 at concrete inputs: the store already holds a same-day
event of the fixture fingerprint, the lookup fails, and the scan is still
recorded as unique with the counter incremented. -/
theorem c10_witness :
    findByShortCode [qrFx] "abc123" = some qrFx ∧
    envC10.uniqLookupFails = true ∧
    eventC10 ∈ [eventC10] ∧
    eventC10.fingerprint =
      generateFingerprint dFx.ip dFx.userAgent envC10.now envC10.seed ∧
    startOfDay envC10.now ≤ eventC10.scannedAt ∧
    isUniqueScanToday [eventC10] qrFx._id
        (generateFingerprint dFx.ip dFx.userAgent envC10.now envC10.seed)
        envC10.now = false ∧
    (processScan envC10 [qrFx] [eventC10] "abc123" dFx).map
        (fun x => (x.1.scan.isUnique, x.2.1)) =
      Except.ok (true, [eventC10] ++ [createScanRecord qrFx dFx
        (getDeviceInfo dFx.userAgent envC10.parsedDevice)
        (getGeoInfo dFx.ip envC10.primary envC10.backup)
        (generateFingerprint dFx.ip dFx.userAgent envC10.now envC10.seed)
        envC10.now]) ∧
    (processScan envC10 [qrFx] [eventC10] "abc123" dFx).map
        (fun x => x.2.2) =
      Except.ok ([qrFx].map fun q =>
        if q._id == qrFx._id then q.incrementScans true envC10.now else q) := by
  have main := c10_lookup_failure_falls_open_to_unique envC10 [qrFx]
    [eventC10] "abc123" dFx qrFx eventC10 (by decide) (by decide) (by decide)
    (by decide) (by decide) (by decide) (by decide) (by decide)
  exact ⟨by decide, by decide, by decide, by decide, by decide,
    main.1, main.2.1, main.2.2⟩

end QRHub
